import Mathlib

/-!
Shallow embedding of the TimerLight scheduling core (src/Timerclock.py).

The time arithmetic models MicroPython's `time` module: the epoch is
2000-01-01 00:00:00, `time.mktime` turns a broken-down local tuple into
seconds since that epoch (normalizing day overflow arithmetically, it does
not validate the day of month), and `time.localtime` is its inverse,
returning `(year, month, mday, hour, minute, second, weekday, yday)` with
`weekday` encoded 0 = Monday .. 6 = Sunday.  Timestamps are natural
numbers, so the model covers years from 2000 on (the chip's RTC stores
years as 2000 + a two-digit value, so this is the program's whole domain).
-/

namespace TimerLight

/-- Gregorian leap-year test (divisible by 4, except centuries not divisible by 400). -/
def isLeap (y : ℕ) : Bool :=
  y % 4 = 0 && (y % 100 != 0 || y % 400 = 0)

/-- Number of days in a calendar year. -/
def daysInYear (y : ℕ) : ℕ :=
  if isLeap y then 366 else 365

/-- Number of days in month `m` (1..12) of year `y`; 0 outside that range. -/
def daysInMonth (y m : ℕ) : ℕ :=
  if m = 2 then (if isLeap y then 29 else 28)
  else if m = 4 ∨ m = 6 ∨ m = 9 ∨ m = 11 then 30
  else if 1 ≤ m ∧ m ≤ 12 then 31
  else 0

/-- Days of year `y` that elapse strictly before month `m` begins
(`daysBeforeMonth y 1 = 0`, `daysBeforeMonth y 13` = whole year). -/
def daysBeforeMonth (y : ℕ) : ℕ → ℕ
  | 0 => 0
  | m + 1 => daysBeforeMonth y m + daysInMonth y m

/-- Days from 2000-01-01 to the start of year `2000 + k`. -/
def daysSince2000 : ℕ → ℕ
  | 0 => 0
  | k + 1 => daysSince2000 k + daysInYear (2000 + k)

/-- MicroPython `time.mktime` for years ≥ 2000: seconds since the
2000-01-01 epoch.  Day-of-month overflow is not validated, it simply
spills into the following days, as the C implementation does. -/
def mktime (y m d h mi s : ℕ) : ℕ :=
  (daysSince2000 (y - 2000) + daysBeforeMonth y m + (d - 1)) * 86400
    + h * 3600 + mi * 60 + s

/-- Weekday of a timestamp, 0 = Monday .. 6 = Sunday (2000-01-01 was a Saturday). -/
def weekdayOf (t : ℕ) : ℕ :=
  (t / 86400 + 5) % 7

/-- Calendar year containing the timestamp `t`: the greatest year whose
first second is at or before `t`. -/
def yearOf (t : ℕ) : ℕ :=
  2000 + Nat.findGreatest (fun k => daysSince2000 k * 86400 ≤ t) (t / 31536000 + 1)

/-- Broken-down local time tuple as returned by MicroPython `time.localtime`. -/
structure PyTm where
  year : ℕ
  month : ℕ
  mday : ℕ
  hour : ℕ
  minute : ℕ
  second : ℕ
  weekday : ℕ
  yday : ℕ
deriving DecidableEq

/-- MicroPython `time.localtime`: invert `mktime`. -/
def localtime (t : ℕ) : PyTm :=
  let y := yearOf t
  let rem := t - daysSince2000 (y - 2000) * 86400
  let yd := rem / 86400
  let month := Nat.findGreatest (fun k => daysBeforeMonth y (k + 1) ≤ yd) 11 + 1
  { year := y
    month := month
    mday := yd - daysBeforeMonth y month + 1
    hour := rem % 86400 / 3600
    minute := rem % 3600 / 60
    second := rem % 60
    weekday := weekdayOf t
    yday := yd + 1 }

/-- The four DST regions of the `DST_RULES` table. -/
inductive DstRegion
  | US
  | EU
  | UK
  | AU
deriving DecidableEq

/-- One entry of the `DST_RULES` table.  `start_week`/`end_week` are signed:
a positive `n` means the nth occurrence, `-1` means the last occurrence. -/
structure DstRule where
  start_month : ℕ
  start_week : ℤ
  start_hour : ℕ
  end_month : ℕ
  end_week : ℤ
  end_hour : ℕ
  offset_minutes : ℕ
deriving DecidableEq

/-- The `DST_RULES` table of the source. -/
def DST_RULES : DstRegion → DstRule
  | .US => ⟨3, 2, 2, 11, 1, 2, 60⟩
  | .EU => ⟨3, -1, 1, 10, -1, 1, 60⟩
  | .UK => ⟨3, -1, 1, 10, -1, 1, 60⟩
  | .AU => ⟨10, 1, 2, 4, 1, 3, 60⟩

/-- Forward scan of `get_nth_weekday_of_month` (`n > 0` branch): walk days
1..31, counting days whose `(localtime(mktime(...))[6] + 1) % 7` equals
`weekday`, returning the day of the nth match.  `fuel` bounds the loop
(32 suffices for `day` starting at 1). -/
def scanUp (year month weekday n : ℕ) : ℕ → ℕ → ℕ → Option ℕ
  | 0, _, _ => none
  | fuel + 1, day, count =>
    if day ≤ 31 then
      if ((localtime (mktime year month day 0 0 0)).weekday + 1) % 7 = weekday then
        if count + 1 = n then some day
        else scanUp year month weekday n fuel (day + 1) (count + 1)
      else scanUp year month weekday n fuel (day + 1) count
    else none

/-- Backward scan of `get_nth_weekday_of_month` (last-occurrence branch):
walk from `day` down to 1 and return the first day whose encoded weekday
matches. -/
def scanDown (year month weekday : ℕ) : ℕ → ℕ → Option ℕ
  | 0, _ => none
  | fuel + 1, day =>
    if 1 ≤ day then
      if ((localtime (mktime year month day 0 0 0)).weekday + 1) % 7 = weekday then
        some day
      else scanDown year month weekday fuel (day - 1)
    else none

/-- The source's `get_nth_weekday_of_month(year, month, weekday, n)`:
nth (or, for `n ≤ 0`, last) day of the month whose weekday, in the
source's `(tm_wday + 1) % 7` encoding, equals `weekday`. -/
def get_nth_weekday_of_month (year month weekday : ℕ) (n : ℤ) : Option ℕ :=
  if 0 < n then
    scanUp year month weekday n.toNat 32 1 0
  else
    let ny := if month = 12 then year + 1 else year
    let nm := if month = 12 then 1 else month + 1
    let lastTs := mktime ny nm 1 0 0 0 - 86400
    scanDown year month weekday 32 (localtime lastTs).mday

/-- The source's `calculate_dst_transitions(year, dst_region)`: the two DST
boundary timestamps for the year, or `(None, None)` if a weekday search fails. -/
def calculate_dst_transitions (year : ℕ) (r : DstRegion) : Option ℕ × Option ℕ :=
  let rules := DST_RULES r
  match get_nth_weekday_of_month year rules.start_month 6 rules.start_week,
        get_nth_weekday_of_month year rules.end_month 6 rules.end_week with
  | some sd, some ed =>
      (some (mktime year rules.start_month sd rules.start_hour 0 0),
       some (mktime year rules.end_month ed rules.end_hour 0 0))
  | _, _ => (none, none)

/-- The source's `is_dst_active(current_time, dst_region)`.  The global
`settings['dst_enabled']` read is the explicit first argument; a region
absent from `DST_RULES` is the `none` case. -/
def is_dst_active (dstEnabled : Bool) (t : ℕ) (region : Option DstRegion) : Bool :=
  match dstEnabled, region with
  | false, _ => false
  | true, none => false
  | true, some r =>
    let year := (localtime t).year
    match calculate_dst_transitions year r with
    | (some dstStart, some dstEnd) =>
      if (DST_RULES r).start_month < (DST_RULES r).end_month then
        decide (dstStart ≤ t ∧ t < dstEnd)
      else
        decide (t ≥ dstStart ∨ t < dstEnd)
    | _ => false

/-- An RGB color triple, the shape of `stay_color`/`wake_color` and of the
values produced by `interpolate_color`. -/
structure RGB where
  r : ℤ
  g : ℤ
  b : ℤ
deriving DecidableEq

/-- Python `int()` applied to a float: truncation toward zero. -/
def pyInt (q : ℚ) : ℤ :=
  if q < 0 then ⌈q⌉ else ⌊q⌋

/-- The source's `ease_in_out_cubic(t)`. -/
def ease_in_out_cubic (t : ℚ) : ℚ :=
  if t < 1/2 then 4 * t * t * t
  else 1 - (-2 * t + 2) ^ 3 / 2

/-- The source's `interpolate_color(color1, color2, progress)`: eased linear
interpolation of each channel, truncated to an integer. -/
def interpolate_color (color1 color2 : RGB) (progress : ℚ) : RGB :=
  let eased := ease_in_out_cubic progress
  { r := pyInt (color1.r + (color2.r - color1.r) * eased)
    g := pyInt (color1.g + (color2.g - color1.g) * eased)
    b := pyInt (color1.b + (color2.b - color1.b) * eased) }

/-- The source's `time_to_minutes`: an "HH:MM" string, modeled as its parsed
(hour, minute) pair, turned into a minute-of-day count. -/
def time_to_minutes (t : ℕ × ℕ) : ℤ :=
  t.1 * 60 + t.2

/-- The slice of the settings record that the scheduling core reads.
`wake_time` and `bedtime` hold the parsed "HH:MM" pairs; `flash_duration`
is in seconds and `flash_interval` in milliseconds, as in the source. -/
structure Settings where
  wake_time : ℕ × ℕ
  bedtime : ℕ × ℕ
  bedtime_enabled : Bool
  stay_color : RGB
  wake_color : RGB
  transition_minutes : ℤ
  leds_enabled : Bool
  brightness : ℤ
  brightness_ramp_enabled : Bool
  brightness_ramp_minutes : ℤ
  brightness_ramp_start : ℤ
  flash_enabled : Bool
  flash_duration : ℤ
  flash_interval : ℤ
deriving DecidableEq

/-- The two module-level mutable cells the engine owns: `flash_start_time`
(None when no flash session is active) and `last_flash_toggle`.  Wall-clock
seconds (`time.time()` floats) are modeled as rationals. -/
structure FlashState where
  flash_start_time : Option ℚ
  last_flash_toggle : ℚ
deriving DecidableEq

/-- What one `update_leds` evaluation tells the LED driver: turn everything
off, show a single color on every pixel, or leave the previous frame
untouched (the flash branch writes nothing between toggles). -/
inductive LedCommand
  | off
  | setColor (c : RGB)
  | noWrite
deriving DecidableEq

/-- The source's `should_flash()`: decides whether a flash session is active
and returns the new `flash_start_time` cell.  `m` is `get_current_minutes()`
and `now` is `time.time()`, each read once per evaluation. -/
def should_flash (s : Settings) (m : ℤ) (now : ℚ) (fst : Option ℚ) :
    Bool × Option ℚ :=
  if !s.flash_enabled then (false, none)
  else if !s.bedtime_enabled then (false, none)
  else if m = time_to_minutes s.bedtime then
    let start := fst.getD now
    let elapsed := now - start
    if elapsed < (s.flash_duration : ℚ) then (true, some start)
    else (false, none)
  else (false, none)

/-- The source's `get_current_brightness()`: base brightness, or the eased
ramp value while inside the ramp window after wake time. -/
def get_current_brightness (s : Settings) (m : ℤ) : ℚ :=
  let base : ℚ := s.brightness
  if !s.brightness_ramp_enabled then base
  else
    let wake := time_to_minutes s.wake_time
    let dur := s.brightness_ramp_minutes
    let startB : ℚ := s.brightness_ramp_start
    if m ≥ wake ∧ m < wake + dur then
      let prog : ℚ := ((m - wake : ℤ) : ℚ) / (dur : ℚ)
      let eased := ease_in_out_cubic prog
      startB + (base - startB) * eased
    else if m ≥ wake + dur then base
    else base

/-- The night-period ("stay in bed") test of `update_leds`: evaluated only
when bedtime is enabled, with the overnight case split on
`bedtime_minutes > wake_minutes`. -/
def in_stay_period (s : Settings) (m : ℤ) : Bool :=
  if s.bedtime_enabled then
    let wake := time_to_minutes s.wake_time
    let tstart := wake - s.transition_minutes
    let bed := time_to_minutes s.bedtime
    if bed > wake then decide (m ≥ bed) || decide (m < tstart)
    else decide (m ≥ bed) && decide (m < tstart)
  else false

/-- The three mutually exclusive schedule states. -/
inductive DayState
  | NIGHT
  | TRANSITION
  | DAY
deriving DecidableEq

/-- Which of NIGHT / TRANSITION / DAY the branch structure of `update_leds`
selects for minute `m`. -/
def scheduleState (s : Settings) (m : ℤ) : DayState :=
  if in_stay_period s m then .NIGHT
  else if m ≥ time_to_minutes s.wake_time then .DAY
  else if m ≥ time_to_minutes s.wake_time - s.transition_minutes then .TRANSITION
  else .NIGHT

/-- The interval index `int(current_time / flash_interval)` of the flash
toggle in `update_leds` (`intervalMs` is `settings['flash_interval']`,
divided by 1000 before use as in the source). -/
def flashIntervalIndex (now : ℚ) (intervalMs : ℤ) : ℤ :=
  pyInt (now / ((intervalMs : ℚ) / 1000))

/-- The on/off flash phase: `int(current_time / flash_interval) % 2`. -/
def flashPhase (now : ℚ) (intervalMs : ℤ) : ℤ :=
  flashIntervalIndex now intervalMs % 2

/-- The source's `update_leds()`: one scheduling evaluation.  `m` is
`get_current_minutes()`, `now` is `time.time()`, `st` holds the two global
flash cells; the result is the LED command issued plus the new cells. -/
def update_leds (s : Settings) (m : ℤ) (now : ℚ) (st : FlashState) :
    LedCommand × FlashState :=
  if !s.leds_enabled then (.off, st)
  else if in_stay_period s m then (.setColor s.stay_color, st)
  else
    let wake := time_to_minutes s.wake_time
    let tstart := wake - s.transition_minutes
    let color :=
      if m ≥ wake then s.wake_color
      else if m ≥ tstart then
        interpolate_color s.stay_color s.wake_color
          (((m - tstart : ℤ) : ℚ) / (s.transition_minutes : ℚ))
      else s.stay_color
    let fl := should_flash s m now st.flash_start_time
    if fl.1 then
      let fi : ℚ := (s.flash_interval : ℚ) / 1000
      if now - st.last_flash_toggle ≥ fi then
        if flashPhase now s.flash_interval = 0 then
          (.setColor color, ⟨fl.2, now⟩)
        else (.off, ⟨fl.2, now⟩)
      else (.noWrite, ⟨fl.2, st.last_flash_toggle⟩)
    else (.setColor color, ⟨fl.2, st.last_flash_toggle⟩)

/-- BCD decoding of one DS3231 register byte (`bcd_to_dec`). -/
def bcd_to_dec (bcd : ℕ) : ℕ :=
  (bcd >>> 4) * 10 + (bcd &&& 0x0F)

/-- The 8-tuple handed to `machine.RTC().datetime(...)`:
(year, month, day, weekday, hours, minutes, seconds, subseconds). -/
structure RtcTuple where
  year : ℕ
  month : ℕ
  day : ℕ
  weekday : ℕ
  hours : ℕ
  minutes : ℕ
  seconds : ℕ
  subseconds : ℕ
deriving DecidableEq

/-- The external-clock environment one sync call observes:
`external_rtc` is whether a DS3231 handle exists (configured and detected);
`bus_data` is the 7-byte register block the I2C read returns, or `none`
when the read raises a bus error. -/
structure ClockEnv where
  external_rtc : Bool
  bus_data : Option (Fin 7 → ℕ)

/-- The source's `read_ds3231_time()`: decode the 7 BCD registers, masking
the flag bits; `none` on a missing handle or a bus error. -/
def read_ds3231_time (env : ClockEnv) : Option RtcTuple :=
  if !env.external_rtc then none
  else
    match env.bus_data with
    | none => none
    | some data =>
      some { year := bcd_to_dec (data 6) + 2000
             month := bcd_to_dec (data 5 &&& 0x1F)
             day := bcd_to_dec (data 4 &&& 0x3F)
             weekday := bcd_to_dec (data 3 &&& 0x07)
             hours := bcd_to_dec (data 2 &&& 0x3F)
             minutes := bcd_to_dec (data 1 &&& 0x7F)
             seconds := bcd_to_dec (data 0 &&& 0x7F)
             subseconds := 0 }

/-- The source's `sync_time_from_ds3231()`: overwrite the internal clock
with the decoded external time, reporting success; on any failure the
internal clock value `rtc` is returned unchanged. -/
def sync_time_from_ds3231 (env : ClockEnv) (rtc : RtcTuple) : Bool × RtcTuple :=
  if !env.external_rtc then (false, rtc)
  else
    match read_ds3231_time env with
    | some dsTime => (true, dsTime)
    | none => (false, rtc)

/-- A concrete settings snapshot close to the shipped defaults: wake 07:00,
bedtime 21:00 (enabled), red stay color, green wake color, 30-minute
transition, LEDs enabled, flash and ramp off, brightness 100. -/
def cfgBase : Settings :=
  { wake_time := (7, 0), bedtime := (21, 0), bedtime_enabled := true
    stay_color := ⟨255, 0, 0⟩, wake_color := ⟨0, 255, 0⟩
    transition_minutes := 30, leds_enabled := true, brightness := 100
    brightness_ramp_enabled := false, brightness_ramp_minutes := 15
    brightness_ramp_start := 10, flash_enabled := false
    flash_duration := 10, flash_interval := 500 }

/-- The default settings with the bedtime flash notification enabled. -/
def cfgFlash : Settings := { cfgBase with flash_enabled := true }

/-- The brightness-ramp scenario of the spec: ramp enabled, 15 minutes,
starting at 10%, base brightness 100%. -/
def cfgRamp : Settings := { cfgBase with brightness_ramp_enabled := true }

/-- The default settings with a zero-length transition window. -/
def cfgZeroT : Settings := { cfgBase with transition_minutes := 0 }

/-- Zero-length transition with bedtime disabled. -/
def cfgNoBed : Settings :=
  { cfgBase with bedtime_enabled := false, transition_minutes := 0 }

/-- A concrete internal-clock value (2000-01-01 00:00:00). -/
def rtc0 : RtcTuple := ⟨2000, 1, 1, 5, 0, 0, 0, 0⟩

/-- The minutes `update_leds` labels NIGHT: the stay period, or the tail of
the else-chain (before both wake and the transition start). -/
def nightMinute (s : Settings) (m : ℤ) : Prop :=
  in_stay_period s m = true ∨
    (in_stay_period s m = false ∧ m < time_to_minutes s.wake_time ∧
      m < time_to_minutes s.wake_time - s.transition_minutes)

/-- The minutes `update_leds` labels TRANSITION. -/
def transitionMinute (s : Settings) (m : ℤ) : Prop :=
  in_stay_period s m = false ∧
    time_to_minutes s.wake_time - s.transition_minutes ≤ m ∧
    m < time_to_minutes s.wake_time

/-- The minutes `update_leds` labels DAY. -/
def dayMinute (s : Settings) (m : ℤ) : Prop :=
  in_stay_period s m = false ∧ time_to_minutes s.wake_time ≤ m

/-- Helper: `pyInt` is the identity on integer values. -/
theorem pyInt_intCast (n : ℤ) : pyInt (n : ℚ) = n := by
  unfold pyInt
  split_ifs <;> simp

/-- C3: with bedtime enabled, `update_leds` is in the night period exactly
when `m ≥ bedtime ∨ m < transition_start` (if bedtime is numerically after
wake) respectively `bedtime ≤ m ∧ m < transition_start` (otherwise), where
`transition_start = wake − transition_minutes`; and in the night period the
emitted steady color is the stay color. -/
theorem c3_night_period (s : Settings) (m : ℤ) (now : ℚ) (st : FlashState)
    (hb : s.bedtime_enabled = true) :
    (in_stay_period s m = true ↔
      (if time_to_minutes s.bedtime > time_to_minutes s.wake_time then
        m ≥ time_to_minutes s.bedtime ∨
          m < time_to_minutes s.wake_time - s.transition_minutes
      else
        time_to_minutes s.bedtime ≤ m ∧
          m < time_to_minutes s.wake_time - s.transition_minutes)) ∧
    (s.leds_enabled = true → in_stay_period s m = true →
      (update_leds s m now st).1 = LedCommand.setColor s.stay_color) := by
  constructor
  · unfold in_stay_period
    rw [hb]
    simp only [eq_self_iff_true, if_true]
    split_ifs with h <;> simp
  · intro hl hstay
    unfold update_leds
    rw [hl, hstay]
    simp

/-- C3 witness: the theorem applied to the default configuration at local
minute 1300 (21:40, inside the night period). -/
theorem c3_night_period_witness :
    (update_leds cfgBase 1300 0 ⟨none, 0⟩).1 = LedCommand.setColor cfgBase.stay_color :=
  (c3_night_period cfgBase 1300 0 ⟨none, 0⟩ rfl).2 rfl (by decide)

/-- C5: for every minute of day and every configuration, the branch
structure of `update_leds` puts the minute in exactly one of NIGHT,
TRANSITION, DAY, and `scheduleState` agrees with the three region
predicates. -/
theorem c5_state_partition (s : Settings) (m : ℤ) (h0 : 0 ≤ m) (h1 : m < 1440) :
    ((nightMinute s m ∧ ¬ transitionMinute s m ∧ ¬ dayMinute s m) ∨
      (¬ nightMinute s m ∧ transitionMinute s m ∧ ¬ dayMinute s m) ∨
      (¬ nightMinute s m ∧ ¬ transitionMinute s m ∧ dayMinute s m)) ∧
    (scheduleState s m = DayState.NIGHT ↔ nightMinute s m) ∧
    (scheduleState s m = DayState.TRANSITION ↔ transitionMinute s m) ∧
    (scheduleState s m = DayState.DAY ↔ dayMinute s m) := by
  unfold scheduleState nightMinute transitionMinute dayMinute
  cases hs : in_stay_period s m
  · simp only [hs, Bool.false_eq_true, if_false, ite_false]
    split_ifs with hA hB <;> simp_all <;> omega
  · simp [hs]

/-- C5 witness: the partition theorem applied to the default configuration
at minute 0 (00:00, in the night period). -/
theorem c5_state_partition_witness :
    scheduleState cfgBase 0 = DayState.NIGHT ↔ nightMinute cfgBase 0 :=
  (c5_state_partition cfgBase 0 (by decide) (by decide)).2.1

/-- C6 counterexample: with `transition_minutes = 0` but bedtime enabled
(the default), minute 1260 (21:00) is at or past `wake_minute = 420`, yet
the emitted output is the stay color, not the wake color as the claim
demands of every minute `m ≥ wake_minute`. -/
theorem c6_counterexample :
    cfgZeroT.transition_minutes = 0 ∧
    time_to_minutes cfgZeroT.wake_time ≤ 1260 ∧
    (update_leds cfgZeroT 1260 0 ⟨none, 0⟩).1 = LedCommand.setColor cfgZeroT.stay_color ∧
    (update_leds cfgZeroT 1260 0 ⟨none, 0⟩).1 ≠ LedCommand.setColor cfgZeroT.wake_color := by
  refine ⟨rfl, by decide, ?_, ?_⟩ <;>
    norm_num [update_leds, in_stay_period, cfgZeroT, cfgBase, time_to_minutes]

/-- C6 (amended): with `transition_minutes = 0` the TRANSITION state (the
only branch that divides by `transition_minutes`) is unreachable for every
configuration and minute; and when bedtime is disabled the output (with
LEDs enabled) switches instantaneously from the stay color at `m < wake`
to the wake color at `m ≥ wake`.  (As claimed, minutes of the night period
still show the stay color, so `m ≥ wake` yields the wake color only
outside the night period; bedtime disabled removes the night period.) -/
theorem c6_zero_transition (s : Settings) (m : ℤ) (now : ℚ) (st : FlashState)
    (ht : s.transition_minutes = 0) :
    scheduleState s m ≠ DayState.TRANSITION ∧
    (s.leds_enabled = true → s.bedtime_enabled = false →
      (update_leds s m now st).1 =
        LedCommand.setColor
          (if time_to_minutes s.wake_time ≤ m then s.wake_color else s.stay_color)) := by
  constructor
  · unfold scheduleState
    rw [ht]
    split_ifs with hA hB hC <;> simp <;> omega
  · intro hl hb
    have hstay : in_stay_period s m = false := by
      unfold in_stay_period
      rw [hb]
      simp
    unfold update_leds
    rw [hl, hstay]
    have hfl : (should_flash s m now st.flash_start_time).1 = false := by
      unfold should_flash
      cases hf : s.flash_enabled <;> simp [hb]
    simp only [Bool.not_true, Bool.false_eq_true, if_false, hfl, hstay]
    rw [ht]
    split_ifs <;> simp_all <;> omega

/-- C6 witness: with bedtime disabled and a zero transition, minute 419 is
still the stay color and minute 420 is already the wake color. -/
theorem c6_zero_transition_witness :
    (update_leds cfgNoBed 419 0 ⟨none, 0⟩).1 =
      LedCommand.setColor
        (if time_to_minutes cfgNoBed.wake_time ≤ 419 then cfgNoBed.wake_color
         else cfgNoBed.stay_color) :=
  (c6_zero_transition cfgNoBed 419 0 ⟨none, 0⟩ rfl).2 rfl rfl

/-- C8: `get_current_brightness` returns the base brightness whenever the
ramp is disabled, the minute is before wake, or at or past wake + ramp
duration; and in the spec's scenario (wake 420, ramp 15, start 10, base
100) it is exactly 10 at minute 420, exactly 100 at 435, and strictly
between 10 and 100 at 427. -/
theorem c8_brightness :
    (∀ (s : Settings) (m : ℤ),
      (s.brightness_ramp_enabled = false ∨ m < time_to_minutes s.wake_time ∨
        time_to_minutes s.wake_time + s.brightness_ramp_minutes ≤ m) →
      get_current_brightness s m = (s.brightness : ℚ)) ∧
    get_current_brightness cfgRamp 420 = 10 ∧
    get_current_brightness cfgRamp 435 = 100 ∧
    (10 < get_current_brightness cfgRamp 427 ∧
      get_current_brightness cfgRamp 427 < 100) := by
  refine ⟨?_, ?_, ?_, ?_⟩
  · intro s m h
    unfold get_current_brightness
    cases hre : s.brightness_ramp_enabled
    · simp
    · simp only [Bool.not_true, Bool.false_eq_true, if_false]
      rcases h with h | h | h
      · exact absurd hre (by rw [h]; decide)
      · split_ifs with hw hw2 <;> first | rfl | omega
      · split_ifs with hw hw2 <;> first | rfl | omega
  · norm_num [get_current_brightness, cfgRamp, cfgBase, time_to_minutes,
      ease_in_out_cubic]
  · norm_num [get_current_brightness, cfgRamp, cfgBase, time_to_minutes,
      ease_in_out_cubic]
  · norm_num [get_current_brightness, cfgRamp, cfgBase, time_to_minutes,
      ease_in_out_cubic]

/-- C8 witness: the base-brightness clause applied to the default
configuration (ramp disabled) at minute 0. -/
theorem c8_brightness_witness :
    get_current_brightness cfgBase 0 = (cfgBase.brightness : ℚ) :=
  c8_brightness.1 cfgBase 0 (Or.inl rfl)

/-- C9: the cubic ease-in-out is monotone on the unit interval with
`f 0 = 0`, `f 1 = 1`, `f (1/2) = 1/2`, and the eased color interpolation
returns the first color exactly at progress 0 and the second exactly at
progress 1. -/
theorem c9_ease_monotone :
    (∀ t u : ℚ, 0 ≤ t → t ≤ u → u ≤ 1 →
      ease_in_out_cubic t ≤ ease_in_out_cubic u) ∧
    ease_in_out_cubic 0 = 0 ∧ ease_in_out_cubic 1 = 1 ∧
    ease_in_out_cubic (1/2) = 1/2 ∧
    (∀ c1 c2 : RGB,
      interpolate_color c1 c2 0 = c1 ∧ interpolate_color c1 c2 1 = c2) := by
  refine ⟨?_, by norm_num [ease_in_out_cubic], by norm_num [ease_in_out_cubic],
    by norm_num [ease_in_out_cubic], ?_⟩
  · intro t u ht htu hu
    unfold ease_in_out_cubic
    split_ifs with h1 h2 h2
    · have hq : (0:ℚ) ≤ u * u + u * t + t * t := by
        nlinarith [sq_nonneg (u + t), sq_nonneg (u - t)]
      nlinarith [mul_nonneg (sub_nonneg.mpr htu) hq]
    · have ha0 : (0:ℚ) ≤ 2 - 2 * u := by linarith
      have ha1 : 2 - 2 * u ≤ (1:ℚ) := by linarith
      have hcube : (2 - 2 * u) ^ 3 ≤ (1:ℚ) := by
        nlinarith [mul_nonneg ha0 ha0]
      have ht3 : 4 * t * t * t ≤ (1:ℚ) / 2 := by
        nlinarith [mul_nonneg ht ht, sq_nonneg t]
      nlinarith [hcube, ht3]
    · linarith
    · have ha0 : (0:ℚ) ≤ 2 - 2 * u := by linarith
      have hab : 2 - 2 * u ≤ 2 - 2 * t := by linarith
      have hq : (0:ℚ) ≤ (2 - 2*u) * (2 - 2*u) + (2 - 2*u) * (2 - 2*t) + (2 - 2*t) * (2 - 2*t) := by
        nlinarith [sq_nonneg ((2 - 2*u) + (2 - 2*t)), sq_nonneg ((2 - 2*u) - (2 - 2*t))]
      nlinarith [mul_nonneg (sub_nonneg.mpr hab) hq]
  · intro c1 c2
    have h0 : ease_in_out_cubic 0 = 0 := by norm_num [ease_in_out_cubic]
    have h1 : ease_in_out_cubic 1 = 1 := by norm_num [ease_in_out_cubic]
    constructor
    · unfold interpolate_color
      rw [h0]
      cases c1
      simp [pyInt_intCast]
    · unfold interpolate_color
      rw [h1]
      cases c2
      have : ∀ a b : ℤ, (a : ℚ) + ((b : ℚ) - (a : ℚ)) * 1 = (b : ℚ) := by
        intro a b; ring
      simp [this, pyInt_intCast]

/-- C9 witness: monotonicity applied at the endpoints 0 and 1. -/
theorem c9_ease_monotone_witness :
    ease_in_out_cubic 0 ≤ ease_in_out_cubic 1 :=
  c9_ease_monotone.1 0 1 (le_refl 0) (by norm_num) (le_refl 1)

/-- C10: when syncing from the DS3231 fails — no external clock handle, or
the register read raises a bus error — `sync_time_from_ds3231` reports
failure and returns the internal clock value unchanged. -/
theorem c10_sync_no_partial_update (env : ClockEnv) (rtc : RtcTuple)
    (h : env.external_rtc = false ∨ env.bus_data = none) :
    sync_time_from_ds3231 env rtc = (false, rtc) := by
  rcases h with h | h
  · unfold sync_time_from_ds3231
    rw [h]
    simp
  · cases he : env.external_rtc
    · unfold sync_time_from_ds3231
      rw [he]
      simp
    · unfold sync_time_from_ds3231 read_ds3231_time
      rw [he, h]
      simp

/-- C10 witness: the theorem applied to an environment with no external
clock configured. -/
theorem c10_sync_no_partial_update_witness :
    sync_time_from_ds3231 ⟨false, none⟩ rtc0 = (false, rtc0) :=
  c10_sync_no_partial_update ⟨false, none⟩ rtc0 (Or.inl rfl)

/-- C1: evaluation of the code at a failing input.  At minute 1260 (the
21:00 bedtime) with flash and bedtime enabled and a flash session active
(started 1.75 s ago, duration 10 s, odd flash phase so the overlay should
currently show all-off), `update_leds` emits the steady stay color: the
night branch returns before the flash overlay is ever evaluated, so the
overlay never takes priority in the NIGHT state. -/
theorem c1_flash_never_overrides_night :
    (should_flash cfgFlash 1260 (4003/4) (some 999)).1 = true ∧
    scheduleState cfgFlash 1260 = DayState.NIGHT ∧
    flashPhase (4003/4) cfgFlash.flash_interval ≠ 0 ∧
    (update_leds cfgFlash 1260 (4003/4) ⟨some 999, 0⟩).1 =
      LedCommand.setColor cfgFlash.stay_color ∧
    (update_leds cfgFlash 1260 (4003/4) ⟨some 999, 0⟩).1 ≠ LedCommand.off := by
  refine ⟨?_, by decide, ?_, ?_, ?_⟩ <;>
    norm_num [should_flash, update_leds, in_stay_period, flashPhase,
      flashIntervalIndex, pyInt, cfgFlash, cfgBase, time_to_minutes] <;>
    decide

/-- C4 counterexample: with `flash_interval = 500` ms the claim fails as a
universal statement.  The evaluations at 0.4 s and 0.6 s are 200 ms apart
but have different phases, and the evaluations at 0.45 s and 1.05 s are
600 ms apart but have the same phase. -/
theorem c4_counterexample :
    ((3:ℚ)/5 - 2/5 = 1/5) ∧ ((21:ℚ)/20 - 9/20 = 3/5) ∧
    flashPhase (3/5) 500 ≠ flashPhase (2/5) 500 ∧
    flashPhase (21/20) 500 = flashPhase (9/20) 500 := by
  refine ⟨by norm_num, by norm_num, ?_, ?_⟩ <;>
    norm_num [flashPhase, flashIntervalIndex, pyInt]

/-- C4 (amended): the flash phase is `int(now / 0.5) mod 2`, so it is
stable exactly within one flash interval: two evaluations 200 ms apart
have the same phase if and only if they lie in the same 500 ms interval,
and two evaluations 600 ms apart have different phases if and only if
exactly one interval boundary lies between them. -/
theorem c4_phase_stability (t : ℚ) (ht : 0 ≤ t) :
    (flashPhase (t + 1/5) 500 = flashPhase t 500 ↔
      flashIntervalIndex (t + 1/5) 500 = flashIntervalIndex t 500) ∧
    (flashPhase (t + 3/5) 500 ≠ flashPhase t 500 ↔
      flashIntervalIndex (t + 3/5) 500 = flashIntervalIndex t 500 + 1) := by
  have hidx : ∀ u : ℚ, 0 ≤ u → flashIntervalIndex u 500 = ⌊u * 2⌋ := by
    intro u hu
    unfold flashIntervalIndex pyInt
    have h2 : u / (((500:ℤ):ℚ) / 1000) = u * 2 := by
      rw [show (((500:ℤ):ℚ) / 1000) = 1/2 by norm_num,
        div_eq_iff (by norm_num : ((1:ℚ)/2) ≠ 0)]
      ring
    rw [h2, if_neg (not_lt.mpr (by positivity))]
  have e1 := hidx t ht
  have e2 := hidx (t + 1/5) (by linarith)
  have e3 := hidx (t + 3/5) (by linarith)
  have hf1 : ⌊t * 2⌋ ≤ ⌊(t + 1/5) * 2⌋ := Int.floor_le_floor (by linarith)
  have hf2 : ⌊(t + 1/5) * 2⌋ ≤ ⌊t * 2⌋ + 1 := by
    have h := Int.floor_le_floor (show (t + 1/5) * 2 ≤ t * 2 + 1 by linarith)
    rwa [Int.floor_add_one] at h
  have hf3 : ⌊t * 2⌋ + 1 ≤ ⌊(t + 3/5) * 2⌋ := by
    have h := Int.floor_le_floor (show t * 2 + 1 ≤ (t + 3/5) * 2 by linarith)
    rwa [Int.floor_add_one] at h
  have hf4 : ⌊(t + 3/5) * 2⌋ ≤ ⌊t * 2⌋ + 2 := by
    have h := Int.floor_le_floor (show (t + 3/5) * 2 ≤ t * 2 + (2:ℤ) by push_cast; linarith)
    rwa [Int.floor_add_int] at h
  unfold flashPhase
  rw [e1, e2, e3]
  omega

/-- C4 witness: the amended theorem applied at `t = 0`. -/
theorem c4_phase_stability_witness :
    (flashPhase ((0:ℚ) + 1/5) 500 = flashPhase 0 500 ↔
      flashIntervalIndex ((0:ℚ) + 1/5) 500 = flashIntervalIndex 0 500) ∧
    (flashPhase ((0:ℚ) + 3/5) 500 ≠ flashPhase 0 500 ↔
      flashIntervalIndex ((0:ℚ) + 3/5) 500 = flashIntervalIndex 0 500 + 1) :=
  c4_phase_stability 0 (le_refl 0)

/-- C2: evaluation of the code at a failing input.  For year 2024 and the
US rule, the search `get_nth_weekday_of_month(2024, 3, 6, 2)` used for the
DST start boundary returns March 9, whose weekday in the `localtime`
encoding (0 = Monday .. 6 = Sunday) is 5, a Saturday — not a Sunday
(March 10 is the second Sunday of March 2024).  The source's
`(tm_wday + 1) % 7` re-encoding maps Saturday, not Sunday, to the anchor
value 6 it passes in. -/
theorem c2_boundary_is_saturday :
    get_nth_weekday_of_month 2024 3 6 2 = some 9 ∧
    (localtime (mktime 2024 3 9 0 0 0)).weekday = 5 ∧
    (localtime (mktime 2024 3 9 0 0 0)).weekday ≠ 6 ∧
    (localtime (mktime 2024 3 10 0 0 0)).weekday = 6 := by
  refine ⟨by decide, by decide, by decide, by decide⟩

/-- Helper: every year has at least 365 days. -/
theorem daysInYear_ge (y : ℕ) : 365 ≤ daysInYear y := by
  unfold daysInYear
  split_ifs <;> omega

/-- Helper: no month has more than 31 days. -/
theorem daysInMonth_le31 (y m : ℕ) : daysInMonth y m ≤ 31 := by
  unfold daysInMonth
  split_ifs <;> omega

/-- Helper: unfolding step of `daysSince2000`. -/
theorem daysSince2000_succ (k : ℕ) :
    daysSince2000 (k + 1) = daysSince2000 k + daysInYear (2000 + k) := rfl

/-- Helper: `daysSince2000` is monotone. -/
theorem daysSince2000_mono : Monotone daysSince2000 :=
  monotone_nat_of_le_succ (fun k => by rw [daysSince2000_succ]; omega)

/-- Helper: `daysSince2000 k` is at least `365 * k`. -/
theorem le_daysSince2000 : ∀ k : ℕ, 365 * k ≤ daysSince2000 k
  | 0 => by simp [daysSince2000]
  | k + 1 => by
    have h1 := le_daysSince2000 k
    have h2 := daysInYear_ge (2000 + k)
    rw [daysSince2000_succ]
    omega

/-- Helper: `yearOf` is characterized by the year bracketing the timestamp. -/
theorem yearOf_spec {t k : ℕ} (h1 : daysSince2000 k * 86400 ≤ t)
    (h2 : t < daysSince2000 (k + 1) * 86400) : yearOf t = 2000 + k := by
  have hbound : k ≤ t / 31536000 + 1 := by
    have h365 := le_daysSince2000 k
    have hmul : 365 * k * 86400 ≤ daysSince2000 k * 86400 :=
      Nat.mul_le_mul_right _ h365
    omega
  unfold yearOf
  set g := Nat.findGreatest (fun j => daysSince2000 j * 86400 ≤ t) (t / 31536000 + 1)
    with hg
  have hg1 : k ≤ g :=
    Nat.le_findGreatest (P := fun j => daysSince2000 j * 86400 ≤ t) hbound h1
  have hg2 : g ≤ k := by
    by_contra hc
    push_neg at hc
    have hP : daysSince2000 g * 86400 ≤ t :=
      Nat.findGreatest_spec (P := fun j => daysSince2000 j * 86400 ≤ t) hbound h1
    have hmono : daysSince2000 (k + 1) ≤ daysSince2000 g := daysSince2000_mono hc
    have := Nat.mul_le_mul_right 86400 hmono
    omega
  omega

/-- Helper: the year `yearOf` assigns really brackets the timestamp. -/
theorem yearOf_bounds (t : ℕ) :
    daysSince2000 (yearOf t - 2000) * 86400 ≤ t ∧
    t < daysSince2000 (yearOf t - 2000 + 1) * 86400 := by
  have hP0 : daysSince2000 0 * 86400 ≤ t := by simp [daysSince2000]
  have hspec :=
    Nat.findGreatest_spec (P := fun k => daysSince2000 k * 86400 ≤ t)
      (m := 0) (n := t / 31536000 + 1) (Nat.zero_le _) hP0
  have hle :=
    Nat.findGreatest_le (P := fun k => daysSince2000 k * 86400 ≤ t)
      (t / 31536000 + 1)
  have hyg : yearOf t =
      2000 + Nat.findGreatest (fun k => daysSince2000 k * 86400 ≤ t) (t / 31536000 + 1) :=
    rfl
  set g := Nat.findGreatest (fun k => daysSince2000 k * 86400 ≤ t) (t / 31536000 + 1)
    with hg
  have hsub : yearOf t - 2000 = g := by omega
  rw [hsub]
  refine ⟨hspec, ?_⟩
  rcases Nat.lt_or_ge g (t / 31536000 + 1) with hlt | hge
  · have hnP :=
      Nat.findGreatest_is_greatest (P := fun k => daysSince2000 k * 86400 ≤ t)
        (n := t / 31536000 + 1) (k := g + 1) (by omega) (by omega)
    simp only [not_le] at hnP
    exact hnP
  · have hgeq : g = t / 31536000 + 1 := by omega
    have h365 := le_daysSince2000 (g + 1)
    have hmul : 365 * (g + 1) * 86400 ≤ daysSince2000 (g + 1) * 86400 :=
      Nat.mul_le_mul_right _ h365
    omega

/-- Helper: unfolding step of `daysBeforeMonth`. -/
theorem daysBeforeMonth_succ (y m : ℕ) :
    daysBeforeMonth y (m + 1) = daysBeforeMonth y m + daysInMonth y m := rfl

/-- Helper: `daysBeforeMonth` is monotone in the month. -/
theorem daysBeforeMonth_mono (y : ℕ) : Monotone (daysBeforeMonth y) :=
  monotone_nat_of_le_succ (fun m => by rw [daysBeforeMonth_succ]; omega)

/-- Helper: the whole year elapses before a thirteenth month. -/
theorem daysBeforeMonth_13 (y : ℕ) : daysBeforeMonth y 13 = daysInYear y := by
  cases hL : isLeap y <;> simp [daysBeforeMonth, daysInMonth, daysInYear, hL]

/-- Helper: days before March. -/
theorem daysBeforeMonth_3 (y : ℕ) :
    daysBeforeMonth y 3 = if isLeap y then 60 else 59 := by
  cases hL : isLeap y <;> simp [daysBeforeMonth, daysInMonth, hL]

/-- Helper: days before October. -/
theorem daysBeforeMonth_10 (y : ℕ) :
    daysBeforeMonth y 10 = if isLeap y then 274 else 273 := by
  cases hL : isLeap y <;> simp [daysBeforeMonth, daysInMonth, hL]

/-- Helper: days before November. -/
theorem daysBeforeMonth_11 (y : ℕ) :
    daysBeforeMonth y 11 = if isLeap y then 305 else 304 := by
  cases hL : isLeap y <;> simp [daysBeforeMonth, daysInMonth, hL]

/-- Helper: days before December. -/
theorem daysBeforeMonth_12 (y : ℕ) :
    daysBeforeMonth y 12 = if isLeap y then 335 else 334 := by
  cases hL : isLeap y <;> simp [daysBeforeMonth, daysInMonth, hL]

/-- Helper: `localtime` never reports a day of month above 31. -/
theorem mday_le_31 (t : ℕ) : (localtime t).mday ≤ 31 := by
  obtain ⟨hlb, hub⟩ := yearOf_bounds t
  set y := yearOf t with hy_def
  have hy2000 : 2000 ≤ y := Nat.le_add_right 2000 _
  set rem := t - daysSince2000 (y - 2000) * 86400 with hrem
  set yd := rem / 86400 with hyd
  set g := Nat.findGreatest (fun k => daysBeforeMonth y (k + 1) ≤ yd) 11 with hg
  have hmday : (localtime t).mday = yd - daysBeforeMonth y (g + 1) + 1 := rfl
  have hstep : daysSince2000 (y - 2000 + 1) =
      daysSince2000 (y - 2000) + daysInYear (2000 + (y - 2000)) := rfl
  have h2000 : 2000 + (y - 2000) = y := by omega
  rw [h2000] at hstep
  have hyd_lt : yd < daysInYear y := by omega
  have hP0 : daysBeforeMonth y 1 ≤ yd := by
    rw [show daysBeforeMonth y 1 = 0 from rfl]
    exact Nat.zero_le _
  have hPg : daysBeforeMonth y (g + 1) ≤ yd :=
    Nat.findGreatest_spec (P := fun k => daysBeforeMonth y (k + 1) ≤ yd)
      (m := 0) (n := 11) (Nat.zero_le 11) hP0
  have hg11 : g ≤ 11 :=
    Nat.findGreatest_le (P := fun k => daysBeforeMonth y (k + 1) ≤ yd) 11
  rcases Nat.lt_or_ge g 11 with hlt | hge
  · have hnP : ¬ daysBeforeMonth y (g + 1 + 1) ≤ yd :=
      Nat.findGreatest_is_greatest (P := fun k => daysBeforeMonth y (k + 1) ≤ yd)
        (n := 11) (k := g + 1) (by omega) (by omega)
    have hsucc : daysBeforeMonth y (g + 1 + 1) =
        daysBeforeMonth y (g + 1) + daysInMonth y (g + 1) := rfl
    have h31 := daysInMonth_le31 y (g + 1)
    rw [hmday]
    omega
  · have hgeq : g = 11 := by omega
    have h13 : daysBeforeMonth y 13 = daysInYear y := daysBeforeMonth_13 y
    have h12 : daysBeforeMonth y 13 = daysBeforeMonth y 12 + daysInMonth y 12 := rfl
    have h1112 : daysBeforeMonth y (11 + 1) = daysBeforeMonth y 12 := by norm_num
    have h31 : daysInMonth y 12 = 31 := by norm_num [daysInMonth]
    rw [hmday, hgeq, h1112]
    omega

/-- Helper: a day returned by the forward scan lies between the starting
day and 31. -/
theorem scanUp_some {year month weekday n : ℕ} :
    ∀ {fuel day count d : ℕ},
      scanUp year month weekday n fuel day count = some d → day ≤ d ∧ d ≤ 31 := by
  intro fuel
  induction fuel with
  | zero => intro day count d h; simp [scanUp] at h
  | succ fuel ih =>
    intro day count d h
    simp only [scanUp] at h
    split_ifs at h with h1 h2 h3
    · simp only [Option.some.injEq] at h
      omega
    · have := ih h
      omega
    · have := ih h
      omega

/-- Helper: a day returned by the backward scan lies between 1 and the
starting day. -/
theorem scanDown_some {year month weekday : ℕ} :
    ∀ {fuel day d : ℕ},
      scanDown year month weekday fuel day = some d → 1 ≤ d ∧ d ≤ day := by
  intro fuel
  induction fuel with
  | zero => intro day d h; simp [scanDown] at h
  | succ fuel ih =>
    intro day d h
    simp only [scanDown] at h
    split_ifs at h with h1 h2
    · simp only [Option.some.injEq] at h
      omega
    · have := ih h
      omega

/-- Helper: a day found by `get_nth_weekday_of_month` lies between 1 and 31. -/
theorem get_nth_some {year month weekday : ℕ} {n : ℤ} {d : ℕ}
    (h : get_nth_weekday_of_month year month weekday n = some d) :
    1 ≤ d ∧ d ≤ 31 := by
  unfold get_nth_weekday_of_month at h
  split_ifs at h with hn hm12
  · exact scanUp_some h
  · simp only [] at h
    have h1 := scanDown_some h
    have h2 := mday_le_31 (mktime (year + 1) 1 1 0 0 0 - 86400)
    omega
  · simp only [] at h
    have h1 := scanDown_some h
    have h2 := mday_le_31 (mktime year (month + 1) 1 0 0 0 - 86400)
    omega

/-- Helper: for a day count at most 31 and an hour below 24, `mktime`
stays inside its calendar year, so `yearOf` recovers the year. -/
theorem yearOf_mktime {y m d h : ℕ} (hy : 2000 ≤ y) (hm1 : 1 ≤ m)
    (hm : m ≤ 12) (hd : d ≤ 31) (hh : h < 24) :
    yearOf (mktime y m d h 0 0) = y := by
  have hk : 2000 + (y - 2000) = y := by omega
  have hstep : daysSince2000 (y - 2000 + 1) =
      daysSince2000 (y - 2000) + daysInYear (2000 + (y - 2000)) := rfl
  rw [hk] at hstep
  have hdbm : daysBeforeMonth y m ≤ daysBeforeMonth y 12 :=
    daysBeforeMonth_mono y (by omega)
  have h13 : daysBeforeMonth y 13 = daysInYear y := daysBeforeMonth_13 y
  have h12 : daysBeforeMonth y 13 = daysBeforeMonth y 12 + daysInMonth y 12 := rfl
  have h31 : daysInMonth y 12 = 31 := by norm_num [daysInMonth]
  have hres := yearOf_spec (t := mktime y m d h 0 0) (k := y - 2000) ?_ ?_
  · rw [hres, hk]
  · unfold mktime
    omega
  · unfold mktime
    omega

/-- Helper: the year field of `localtime` is `yearOf`. -/
theorem localtime_year (t : ℕ) : (localtime t).year = yearOf t := rfl

/-- Helper: the northern-hemisphere half of C7, generic in the region once
its calendar constants are bounded: an instant exactly at the start
boundary is DST-active and an instant exactly at the end boundary is not. -/
theorem is_dst_active_at_boundaries (r : DstRegion) (year s e : ℕ)
    (hy : 2000 ≤ year)
    (hcalc : calculate_dst_transitions year r = (some s, some e))
    (hlt : (DST_RULES r).start_month < (DST_RULES r).end_month)
    (hsm1 : 1 ≤ (DST_RULES r).start_month)
    (hem12 : (DST_RULES r).end_month ≤ 12)
    (hsh : (DST_RULES r).start_hour < 24)
    (heh : (DST_RULES r).end_hour < 24)
    (hgap : daysBeforeMonth year (DST_RULES r).start_month + 31 ≤
      daysBeforeMonth year (DST_RULES r).end_month) :
    is_dst_active true s (some r) = true ∧ is_dst_active true e (some r) = false := by
  have hcalc0 := hcalc
  unfold calculate_dst_transitions at hcalc
  simp only [] at hcalc
  rcases hsd : get_nth_weekday_of_month year (DST_RULES r).start_month 6
      (DST_RULES r).start_week with _ | sd <;> rw [hsd] at hcalc
  · simp at hcalc
  rcases hed : get_nth_weekday_of_month year (DST_RULES r).end_month 6
      (DST_RULES r).end_week with _ | ed <;> rw [hed] at hcalc
  · simp at hcalc
  simp only [Option.some.injEq, Prod.mk.injEq] at hcalc
  obtain ⟨hs, he⟩ := hcalc
  have hsdb := get_nth_some hsd
  have hedb := get_nth_some hed
  have hys : yearOf s = year := by
    rw [← hs]
    exact yearOf_mktime hy hsm1 (by omega) hsdb.2 hsh
  have hye : yearOf e = year := by
    rw [← he]
    exact yearOf_mktime hy (by omega) hem12 hedb.2 heh
  have hse : s < e := by
    rw [← hs, ← he]
    unfold mktime
    have hmul1 : (daysBeforeMonth year (DST_RULES r).start_month + 31) * 86400 ≤
        daysBeforeMonth year (DST_RULES r).end_month * 86400 :=
      Nat.mul_le_mul_right _ hgap
    omega
  constructor
  · unfold is_dst_active
    rw [localtime_year, hys]
    simp only []
    rw [hcalc0]
    simp only [hlt, if_true, ite_true]
    simp [hse]
  · unfold is_dst_active
    rw [localtime_year, hye]
    simp only []
    rw [hcalc0]
    simp only [hlt, if_true, ite_true]
    simp

/-- C7: for every rule of the table with `start_month < end_month`
(US, EU, UK) and every year from 2000 on for which both boundaries are
computed, an instant exactly at the start boundary is DST-active and an
instant exactly at the end boundary is not; and for every rule with
`start_month ≥ end_month` (AU), DST is active exactly when the instant is
at or past the start boundary or before the end boundary of its own year. -/
theorem c7_dst_boundaries :
    (∀ (r : DstRegion) (year s e : ℕ), 2000 ≤ year →
      calculate_dst_transitions year r = (some s, some e) →
      (DST_RULES r).start_month < (DST_RULES r).end_month →
      is_dst_active true s (some r) = true ∧ is_dst_active true e (some r) = false) ∧
    (∀ (r : DstRegion) (t s e : ℕ),
      ¬ (DST_RULES r).start_month < (DST_RULES r).end_month →
      calculate_dst_transitions (localtime t).year r = (some s, some e) →
      (is_dst_active true t (some r) = true ↔ (s ≤ t ∨ t < e))) := by
  constructor
  · intro r year s e hy hcalc hlt
    refine is_dst_active_at_boundaries r year s e hy hcalc hlt ?_ ?_ ?_ ?_ ?_
    · cases r <;> norm_num [DST_RULES]
    · cases r <;> norm_num [DST_RULES]
    · cases r <;> norm_num [DST_RULES]
    · cases r <;> norm_num [DST_RULES]
    · cases r
      · have h3 := daysBeforeMonth_3 year
        have h11 := daysBeforeMonth_11 year
        simp only [DST_RULES]
        cases hL : isLeap year <;> rw [hL] at h3 h11 <;> simp at h3 h11 <;> omega
      · have h3 := daysBeforeMonth_3 year
        have h10 := daysBeforeMonth_10 year
        simp only [DST_RULES]
        cases hL : isLeap year <;> rw [hL] at h3 h10 <;> simp at h3 h10 <;> omega
      · have h3 := daysBeforeMonth_3 year
        have h10 := daysBeforeMonth_10 year
        simp only [DST_RULES]
        cases hL : isLeap year <;> rw [hL] at h3 h10 <;> simp at h3 h10 <;> omega
      · exact absurd hlt (by norm_num [DST_RULES])
  · intro r t s e hns hcalc
    unfold is_dst_active
    simp only []
    rw [hcalc]
    simp [hns, ge_iff_le]

/-- C7 witness: the 2024 US boundaries, namely 2024-03-09 02:00 and
2024-11-02 02:00 local standard time. -/
theorem c7_dst_boundaries_witness :
    is_dst_active true (mktime 2024 3 9 2 0 0) (some DstRegion.US) = true ∧
    is_dst_active true (mktime 2024 11 2 2 0 0) (some DstRegion.US) = false :=
  c7_dst_boundaries.1 DstRegion.US 2024 (mktime 2024 3 9 2 0 0)
    (mktime 2024 11 2 2 0 0) (by norm_num) (by decide) (by decide)

end TimerLight
